import Mathlib

/-!
# Verification of the companion collectors' state-tracking and filtering core

Shallow embedding of the state-store, freshness and filter logic of the
repository (`tools/_shared/storage.py`, `tools/_shared/filters.py`, and the
Gmail / Reddit / StackExchange collectors), together with theorems settling
the specification claims about them.

Python `dict[str, V]` values are modelled as insertion-ordered association
lists `List (String × V)`; `dict.update`, key lookup and keyed replacement
are modelled by `pyDictUpdate`, `lookupA` and `setKey` below, which mirror
CPython semantics (first binding wins on lookup; update replaces the value
of an existing key in place and appends fresh keys in iteration order).
-/

set_option autoImplicit false
set_option maxRecDepth 4000

namespace Companion

/-- Python `d.get(k)` / `d[k]` on an association-list model of a dict:
the first binding of the key wins. -/
def lookupA {α : Type} : List (String × α) → String → Option α
  | [], _ => none
  | (k', v) :: rest, k => if k' = k then some v else lookupA rest k

/-- Python `d[k] = v`: replace the (first) binding of an existing key in
place, otherwise append the new binding at the end. -/
def setKey {α : Type} : List (String × α) → String → α → List (String × α)
  | [], k, v => [(k, v)]
  | (k', v') :: rest, k, v =>
      if k' = k then (k, v) :: rest else (k', v') :: setKey rest k v

/-- Python `d.update(u)`: apply `d[k] = v` for each binding of `u` in
iteration order. -/
def pyDictUpdate {α : Type} (d u : List (String × α)) : List (String × α) :=
  u.foldl (fun acc kv => setKey acc kv.1 kv.2) d

theorem lookupA_setKey {α : Type} (l : List (String × α)) (k k' : String) (v : α) :
    lookupA (setKey l k v) k' = if k = k' then some v else lookupA l k' := by
  induction l with
  | nil => simp [setKey, lookupA]
  | cons hd tl ih =>
      obtain ⟨k₀, v₀⟩ := hd
      by_cases h₀ : k₀ = k
      · subst h₀
        by_cases h' : k₀ = k' <;> simp [setKey, lookupA, h']
      · by_cases h' : k₀ = k'
        · subst h'
          have : ¬ k = k₀ := fun h => h₀ h.symm
          simp [setKey, lookupA, h₀, this]
        · simp [setKey, lookupA, h₀, h', ih]

theorem lookupA_eq_none_of_not_mem {α : Type} (l : List (String × α)) (k : String)
    (h : k ∉ l.map Prod.fst) : lookupA l k = none := by
  induction l with
  | nil => rfl
  | cons hd tl ih =>
      obtain ⟨k₀, v₀⟩ := hd
      simp only [List.map_cons, List.mem_cons] at h
      push_neg at h
      have hne : k₀ ≠ k := fun he => h.1 he.symm
      simp [lookupA, hne, ih h.2]

/-- Characterisation of Python `d.update(u)` for a well-formed update dict
(no duplicate keys): a key named in `u` maps to `u`'s value, any other key
keeps its binding from `d`. -/
theorem lookupA_pyDictUpdate {α : Type} (d u : List (String × α)) (k : String)
    (hu : (u.map Prod.fst).Nodup) :
    lookupA (pyDictUpdate d u) k =
      (match lookupA u k with
       | some v => some v
       | none => lookupA d k) := by
  induction u generalizing d with
  | nil => simp [pyDictUpdate, lookupA]
  | cons hd rest ih =>
      obtain ⟨k₁, v₁⟩ := hd
      simp only [List.map_cons, List.nodup_cons] at hu
      have step : pyDictUpdate d ((k₁, v₁) :: rest) = pyDictUpdate (setKey d k₁ v₁) rest := rfl
      rw [step, ih (setKey d k₁ v₁) hu.2]
      by_cases hk : k₁ = k
      · subst hk
        have hnone : lookupA rest k₁ = none := lookupA_eq_none_of_not_mem rest k₁ hu.1
        simp [lookupA, hnone, lookupA_setKey]
      · cases hrest : lookupA rest k with
        | some v => simp [lookupA, hk, hrest]
        | none => simp [lookupA, hk, hrest, lookupA_setKey]

/-! ## `tools/_shared/storage.py` — `JsonStateManager`

The JSON state file holds a single dict; for the update claims its values
are the per-item records described by the spec (`actions_applied`,
`freshness_counters`, `last_processed`).  `update_state(updates)` is
`state = load_state(); state.update(updates); save_state(state)`:
`update_state_result prior updates` below is the container persisted by
that call given that `load_state()` returned `prior`. -/

/-- A per-item record as stored in the JSON state container. -/
structure PRecord where
  actions_applied : List String := []
  freshness_counters : List (String × Int) := []
  last_processed : String := ""
deriving DecidableEq

/-- The container persisted by `JsonStateManager.update_state(updates)`
when `load_state()` returned `prior`: a plain Python `dict.update`. -/
def update_state_result (prior updates : List (String × PRecord)) :
    List (String × PRecord) :=
  pyDictUpdate prior updates

/-- `actions_applied` of the record stored for `k` (empty when absent). -/
def actionsAt (state : List (String × PRecord)) (k : String) : List String :=
  ((lookupA state k).getD {}).actions_applied

/-! ## Gmail collector — per-message state step (`collect_rule`)

`GmailCollector.collect_rule` keeps per-message records
`{"actions_applied": [...], "last_processed": iso}` inside the
`processed_messages` dict.  For each found message it reloads state, takes
the current record (default `{"actions_applied": []}`), computes
`pending = [a for a in rule.actions if a not in record["actions_applied"]]`,
skips the message when `pending` is empty, otherwise extends
`actions_applied` with the actions it applied and overwrites
`last_processed`.  `collect_message_step` models one such iteration on the
success path (message details fetched, content filter passed, every pending
action applied). -/

/-- A Gmail per-message state record. -/
structure MsgRec where
  actions_applied : List String := []
  last_processed : Option String := none
deriving DecidableEq

/-- `actions_applied` of the message record stored for `k` (empty when absent). -/
def actionsAtM (pm : List (String × MsgRec)) (k : String) : List String :=
  ((lookupA pm k).getD {}).actions_applied

/-- One per-message iteration of `GmailCollector.collect_rule` on the
success path: compute the pending actions, skip if none, otherwise extend
the record's `actions_applied` and overwrite `last_processed`. -/
def collect_message_step (pm : List (String × MsgRec)) (mid : String)
    (ruleActions : List String) (now : String) : List (String × MsgRec) :=
  if ruleActions.filter
      (fun a => !(decide (a ∈ ((lookupA pm mid).getD {}).actions_applied))) = [] then
    pm
  else
    setKey pm mid
      { actions_applied := ((lookupA pm mid).getD {}).actions_applied ++
          ruleActions.filter
            (fun a => !(decide (a ∈ ((lookupA pm mid).getD {}).actions_applied))),
        last_processed := some now }

/-! ### Claims C1 and C2 — `update_state` semantics -/

/-- Stored record used in the C1 counterexample. -/
def recSave : PRecord :=
  { actions_applied := ["save"], freshness_counters := [("n", 5)], last_processed := "t1" }

/-- Delta record used in the C1 counterexample. -/
def recArchive : PRecord :=
  { actions_applied := ["archive"], freshness_counters := [("n", 3)], last_processed := "t2" }

/-- Container persisted by `update_state` on the C1 counterexample input. -/
def c1CodeResult : List (String × PRecord) :=
  update_state_result [("x", recSave)] [("x", recArchive)]

/-- C1 counterexample: with stored record
`{actions_applied: ["save"], freshness_counters: {n: 5}}` and delta
`{actions_applied: ["archive"], freshness_counters: {n: 3}}` for the same
item, `update_state` drops the stored action `"save"` and stores the
delta's counter value `3` instead of the maximum `5` — the claimed
field-wise merge (union of action sets, max of counters) does not happen. -/
theorem c1_update_not_fieldwise_merge_counterexample :
    ¬ ("save" ∈ actionsAt c1CodeResult "x") ∧
    lookupA ((lookupA c1CodeResult "x").getD {}).freshness_counters "n" = some 3 := by
  decide

/-- C1 (amended): `JsonStateManager.update_state` is Python `dict.update`
on the container: each delta key maps afterwards to exactly the delta's
record (wholesale replacement, inserted as new when absent), and every key
not named in the deltas keeps its prior record. -/
theorem c1_update_replaces_records (prior deltas : List (String × PRecord))
    (k : String) (hu : (deltas.map Prod.fst).Nodup) :
    lookupA (update_state_result prior deltas) k =
      (match lookupA deltas k with
       | some v => some v
       | none => lookupA prior k) := by
  have h := lookupA_pyDictUpdate prior deltas k hu
  unfold update_state_result
  cases hd : lookupA deltas k <;> rw [hd] at h <;> simpa using h

/-- Witness for `c1_update_replaces_records` at a concrete input. -/
theorem c1_update_replaces_records_witness :
    ((([("x", recArchive)] : List (String × PRecord)).map Prod.fst).Nodup) ∧
    lookupA (update_state_result [("x", recSave)] [("x", recArchive)]) "x" =
      (match lookupA [("x", recArchive)] "x" with
       | some r => some r
       | none => lookupA [("x", recSave)] "x") :=
  ⟨by decide, c1_update_replaces_records [("x", recSave)] [("x", recArchive)] "x" (by decide)⟩

/-- State after `update_state({x: {actions_applied: ["save"]}})` from empty. -/
def c2State1 : List (String × PRecord) :=
  update_state_result [] [("x", { actions_applied := ["save"] })]

/-- State after the further `update_state({x: {actions_applied: ["archive"]}})`. -/
def c2State2 : List (String × PRecord) :=
  update_state_result c2State1 [("x", { actions_applied := ["archive"] })]

/-- C2 counterexample: after `update({x: {actions_applied: ["save"]}})`
followed by `update({x: {actions_applied: ["archive"]}})` the stored record
for `x` no longer contains `"save"` — store-level updates replace the
action list, so `actions_applied` is not monotone across `update_state`. -/
theorem c2_actions_not_monotone_counterexample :
    ¬ ("save" ∈ actionsAt c2State2 "x") ∧ "archive" ∈ actionsAt c2State2 "x" := by
  decide

/-- C2 (amended): monotone growth of `actions_applied` holds at the Gmail
collector level, not at the store level: a `collect_rule` message step only
ever extends the freshly loaded record's `actions_applied` (and leaves
other messages untouched), so after a step applying `"save"` followed by a
step applying `"archive"` the record contains both. -/
theorem c2_collector_actions_monotone :
    (∀ (pm : List (String × MsgRec)) (mid : String) (acts : List String) (now : String),
      (∀ a, a ∈ actionsAtM pm mid → a ∈ actionsAtM (collect_message_step pm mid acts now) mid)
      ∧ (∀ mid', mid' ≠ mid →
          lookupA (collect_message_step pm mid acts now) mid' = lookupA pm mid')) ∧
    actionsAtM
      (collect_message_step (collect_message_step [] "x" ["save"] "t1") "x" ["archive"] "t2")
      "x" = ["save", "archive"] := by
  refine ⟨fun pm mid acts now => ⟨fun a ha => ?_, fun mid' hne => ?_⟩, by decide⟩
  · unfold collect_message_step
    by_cases hp : acts.filter
        (fun a => !(decide (a ∈ ((lookupA pm mid).getD {}).actions_applied))) = []
    · simpa [hp] using ha
    · simp only [hp, if_false, actionsAtM, lookupA_setKey, if_pos rfl, Option.getD_some]
      exact List.mem_append_left _ ha
  · unfold collect_message_step
    by_cases hp : acts.filter
        (fun a => !(decide (a ∈ ((lookupA pm mid).getD {}).actions_applied))) = []
    · simp [hp]
    · have hne' : mid ≠ mid' := fun h => hne h.symm
      simp only [hp, if_false, lookupA_setKey]
      simp [hne']

/-- Witness for `c2_collector_actions_monotone` at a concrete input. -/
theorem c2_collector_actions_monotone_witness :
    "save" ∈ actionsAtM [("x", { actions_applied := ["save"] })] "x" ∧
    "save" ∈ actionsAtM
      (collect_message_step [("x", { actions_applied := ["save"] })] "x" ["archive"] "t2") "x" :=
  ⟨by decide,
    (c2_collector_actions_monotone.1 [("x", { actions_applied := ["save"] })] "x"
      ["archive"] "t2").1 "save" (by decide)⟩

/-! ## `tools/_shared/filters.py` — keyword matching and content filtering

`matches_keywords` lowercases text and keywords (unless `case_sensitive`),
skips empty keywords, and for each keyword either does a plain substring
test or — when the keyword contains `*` or `?` — calls
`fnmatch.fnmatch(search_text, f"*{pattern}*")`.  The module performs no
pattern validation and no text truncation of any kind (its docstring says
"No ReDoS protection or field size limits needed", although the shared test
suite still imports `_validate_pattern_safety`, `_truncate_for_matching`
and `MAX_SEARCH_TEXT_LENGTH` from it and asserts the rejection/truncation
behaviour).

`apply_content_filter(content_data, filter_criteria)` evaluates, in order:
age, score, comment count, include keywords (at least one must match),
exclude keywords (none may match).  Each of the three threshold checks
wraps its conversion in `try/except (ValueError, TypeError)` and skips the
check when that clause catches — but `OverflowError` is not in the clause:
`datetime.fromtimestamp` on a numeric date outside the platform range
(e.g. `1e30` or `float("inf")`) and `int()` on an infinite float raise it
uncaught, so the embedding returns `Except PyRaise Bool` and those runs
end in `.error`.  Timestamps are modelled as UTC seconds and `now` is an
explicit argument.  The `body` field (HTML stripping via
`strip_html_tags`) is exercised by no claim and is not modelled; the
combined search text is built from `title` and `text` as in the source. -/

/-- Glob matching as performed by Python `fnmatch.fnmatch` on patterns made
of literal characters and the wildcards `*` (any substring) and `?` (any
single character); the pattern must match the whole text.  (`[seq]`
character classes appear in no claim input and are not modelled.) -/
def globMatch : List Char → List Char → Bool
  | [], s => s.isEmpty
  | '*' :: ps, s => s.tails.any (fun t => globMatch ps t)
  | '?' :: ps, s =>
      match s with
      | [] => false
      | _ :: cs => globMatch ps cs
  | p :: ps, s =>
      match s with
      | [] => false
      | c :: cs => (p == c) && globMatch ps cs

/-- Python `str.lower()` (character-wise lowercasing; the claim inputs are
ASCII, where Python and Lean lowercasing agree). -/
def pyLower (s : String) : String :=
  String.mk (s.toList.map Char.toLower)

/-- Bool-valued test that `pat` is a leading segment of `text`. -/
def startsWithL : List Char → List Char → Bool
  | [], _ => true
  | _ :: _, [] => false
  | p :: ps, c :: cs => (p == c) && startsWithL ps cs

/-- Python substring containment `pat in text`. -/
def containsSeq (pat text : List Char) : Bool :=
  text.tails.any (fun t => startsWithL pat t)

/-- The per-keyword body of the loop in `matches_keywords`: skip empty
keywords, lowercase unless case-sensitive, then wildcard match with the
pattern wrapped in `*…*`, or plain substring containment. -/
def matchOneKeyword (search_text : String) (case_sensitive : Bool) (keyword : String) : Bool :=
  if keyword = "" then false
  else
    let pattern := if case_sensitive then keyword else pyLower keyword
    if pattern.toList.contains '*' || pattern.toList.contains '?' then
      globMatch ('*' :: pattern.toList ++ ['*']) search_text.toList
    else
      containsSeq pattern.toList search_text.toList

/-- `filters.matches_keywords`: true when any keyword matches the text;
false for empty text or an empty keyword list. -/
def matches_keywords (text_content : String) (keyword_list : List String)
    (case_sensitive : Bool := false) : Bool :=
  if text_content = "" || keyword_list.isEmpty then false
  else
    let search_text := if case_sensitive then text_content else pyLower text_content
    keyword_list.any (matchOneKeyword search_text case_sensitive)

/-- `filters.matches_keywords_debug`: same loop, but also reports the first
keyword that matched. -/
def matches_keywords_debug (text_content : String) (keyword_list : List String)
    (case_sensitive : Bool := false) : Bool × Option String :=
  if text_content = "" || keyword_list.isEmpty then (false, none)
  else
    let search_text := if case_sensitive then text_content else pyLower text_content
    match keyword_list.find? (fun kw => matchOneKeyword search_text case_sensitive kw) with
    | some kw => (true, some kw)
    | none => (false, none)

/-- Exceptions that escape `apply_content_filter`: the per-check
`try/except` clauses catch only `(ValueError, TypeError)`, so an
`OverflowError` — from `datetime.fromtimestamp` on an out-of-range numeric
date, or from `int()` on an infinite float — propagates to the caller. -/
inductive PyRaise where
  | overflowError
deriving DecidableEq

/-- Outcome of one fallible conversion inside a check: a value, an
exception the surrounding `except (ValueError, TypeError)` clause catches,
or an `OverflowError` it does not. -/
inductive ParseOutcome where
  | parsed (t : Int)
  | caught
  | overflow
deriving DecidableEq

/-- A value found in a numeric content field (`score`, `num_comments`):
an ordinary number, an infinite float (`float("inf")` / `float("-inf")`,
on which `float()` succeeds but `int()` raises *uncaught*
`OverflowError`), or a value on which both `float()` and `int()` raise
`ValueError`/`TypeError` (caught). -/
inductive PyNum where
  | int (n : Int)
  | inf
  | negInf
  | bad
deriving DecidableEq

/-- A value found in the `created_date` field: a parsable ISO-8601 string,
an unparsable string (`fromisoformat` raises `ValueError`, caught), a
native datetime, an epoch number within `fromtimestamp`'s platform range —
each numeric case carrying the UTC timestamp in seconds it denotes after
the source's normalisation — an epoch number outside that range or an
infinite float (`fromtimestamp` raises *uncaught* `OverflowError`), or a
non-string non-datetime non-numeric value (`float()` raises
`TypeError`/`ValueError`, caught). -/
inductive PyDate where
  | isoTs (t : Int)
  | isoBad
  | dtTs (t : Int)
  | epochTs (t : Int)
  | epochOverflow
  | bad
deriving DecidableEq

/-- Python truthiness of a `created_date` value (the source guards the age
filter with `content_data.get("created_date")`): nonempty strings and
datetimes are truthy, as are out-of-range/infinite epoch numbers; an
in-range epoch number is falsy exactly when it is `0`. -/
def PyDate.truthy : PyDate → Bool
  | .isoTs _ => true
  | .isoBad => true
  | .dtTs _ => true
  | .epochTs t => decide (t ≠ 0)
  | .epochOverflow => true
  | .bad => true

/-- Date parsing and UTC normalisation, with the exception class it raises
when it fails: `fromisoformat` failures and `float()` failures are caught
by the age check's `except (ValueError, TypeError)`; `fromtimestamp` on an
out-of-range or infinite number raises `OverflowError`, which is not. -/
def PyDate.parseE : PyDate → ParseOutcome
  | .isoTs t => .parsed t
  | .isoBad => .caught
  | .dtTs t => .parsed t
  | .epochTs t => .parsed t
  | .epochOverflow => .overflow
  | .bad => .caught

/-- The content fields read by `apply_content_filter`. -/
structure ContentData where
  title : Option String := none
  text : Option String := none
  score : Option PyNum := none
  num_comments : Option PyNum := none
  created_date : Option PyDate := none
deriving DecidableEq

/-- `filter_criteria` as consumed by `apply_content_filter` (missing dict
keys modelled as `none` / `[]`, which the source treats identically). -/
structure FilterCriteria where
  max_age_days : Option Int := none
  min_score : Option Int := none
  min_comments : Option Int := none
  include_keywords : List String := []
  exclude_keywords : List String := []
deriving DecidableEq

/-- The combined search text: truthy `title` then truthy `text`, joined
with spaces. -/
def combinedText (c : ContentData) : String :=
  String.intercalate " "
    ((match c.title with | some t => if t = "" then [] else [t] | none => []) ++
     (match c.text with | some t => if t = "" then [] else [t] | none => []))

/-- The age block of `apply_content_filter`: guarded by a set
`max_age_days` and a truthy `created_date`; parses and compares against
the cutoff inside `try/except (ValueError, TypeError)`, so a caught parse
failure skips the check while an `OverflowError` from `fromtimestamp`
escapes.  `.ok true` means the check rejects the content. -/
def age_check (now : Int) (content_data : ContentData)
    (filter_criteria : FilterCriteria) : Except PyRaise Bool :=
  match filter_criteria.max_age_days, content_data.created_date with
  | some max_age, some d =>
      if d.truthy then
        match d.parseE with
        | .parsed t => .ok (decide (t < now - max_age * 86400))
        | .caught => .ok false
        | .overflow => .error .overflowError
      else .ok false
  | _, _ => .ok false

/-- The score block: `float(content_data["score"]) < min_score` inside
`try/except (ValueError, TypeError)`.  `float()` succeeds on infinite
floats — `inf` compares below no threshold, `-inf` below every one — and
its `ValueError`/`TypeError` failures are caught, so this check never
raises. -/
def score_check (content_data : ContentData)
    (filter_criteria : FilterCriteria) : Except PyRaise Bool :=
  match filter_criteria.min_score, content_data.score with
  | some ms, some sv =>
      match sv with
      | .int n => .ok (decide (n < ms))
      | .inf => .ok false
      | .negInf => .ok true
      | .bad => .ok false
  | _, _ => .ok false

/-- The comment-count block: `int(content_data["num_comments"]) <
min_comments` inside `try/except (ValueError, TypeError)`: caught `int()`
failures skip the check, but `int()` of an infinite float raises
`OverflowError`, which is not in the except clause and escapes. -/
def comments_check (content_data : ContentData)
    (filter_criteria : FilterCriteria) : Except PyRaise Bool :=
  match filter_criteria.min_comments, content_data.num_comments with
  | some mc, some cv =>
      match cv with
      | .int n => .ok (decide (n < mc))
      | .inf => .error .overflowError
      | .negInf => .error .overflowError
      | .bad => .ok false
  | _, _ => .ok false

/-- `filters.apply_content_filter`: ordered short-circuit evaluation of
age, score, comment-count, include-keyword and exclude-keyword checks.
Checks whose input is missing, falsy, or fails its conversion with a
caught `ValueError`/`TypeError` are skipped; an `OverflowError` raised
inside a check propagates out of the function (`.error`). -/
def apply_content_filter (now : Int) (content_data : ContentData)
    (filter_criteria : FilterCriteria) : Except PyRaise Bool :=
  let combined_text := combinedText content_data
  match age_check now content_data filter_criteria with
  | .error e => .error e
  | .ok true => .ok false
  | .ok false =>
      match score_check content_data filter_criteria with
      | .error e => .error e
      | .ok true => .ok false
      | .ok false =>
          match comments_check content_data filter_criteria with
          | .error e => .error e
          | .ok true => .ok false
          | .ok false =>
              if !filter_criteria.include_keywords.isEmpty &&
                  !(matches_keywords combined_text filter_criteria.include_keywords) then
                .ok false
              else
                if !filter_criteria.exclude_keywords.isEmpty &&
                    (matches_keywords_debug combined_text
                      filter_criteria.exclude_keywords).1 then
                  .ok false
                else .ok true

/-! ### Claim C5 — adversarial-input safeguards -/

/-- Number of `*`/`?` wildcards in a keyword pattern (the quantity the test
suite's `_validate_pattern_safety` caps at 3). -/
def wildcardCount (pattern : String) : Nat :=
  (pattern.toList.filter (fun ch => ch == '*' || ch == '?')).length

/-- C5: no safeguard exists.  The pattern `"a*b*c*d*e"` has 4 wildcards
(more than 3) yet is matched — and matches — rather than being rejected,
and a 201-character pattern (longer than 200) is likewise matched against
the text in full.  This contradicts the repository's own test suite, which
imports `_validate_pattern_safety`, `_truncate_for_matching`,
`MAX_SEARCH_TEXT_LENGTH` etc. from `tools/_shared/filters.py` (none of
which exist there) and asserts rejection of exactly such patterns. -/
theorem c5_wildcard_pattern_not_rejected :
    wildcardCount "a*b*c*d*e" = 4 ∧
    matches_keywords "axbyczdwe" ["a*b*c*d*e"] = true ∧
    (String.mk (List.replicate 201 'a')).length = 201 ∧
    matches_keywords (String.mk (List.replicate 201 'a'))
      [String.mk (List.replicate 201 'a')] = true := by
  decide

/-! ### Claim C7 — age filter boundary -/

/-- Content carrying only an ISO-dated `created_date`, as in the C7 witness. -/
def c7Content (t : Int) : ContentData :=
  { created_date := some (.isoTs t) }

/-- C7: the age cutoff is strict on the too-old side.  With a parsable
`created_date` of timestamp `t` and `max_age_days = d`, pure age filtering
returns exactly `now - d·86400 ≤ t` without raising — so content one
second older than the cutoff fails and content one second younger passes
(and content exactly at the cutoff passes, settling the boundary) — and
any criteria with that `max_age_days` reject content strictly older than
the cutoff. -/
theorem c7_age_filter_boundary (now d t : Int) (c : ContentData)
    (hc : c.created_date = some (.isoTs t)) :
    (apply_content_filter now c { max_age_days := some d } =
      .ok (decide (now - d * 86400 ≤ t))) ∧
    (∀ f : FilterCriteria, f.max_age_days = some d → t < now - d * 86400 →
      apply_content_filter now c f = .ok false) := by
  constructor
  · unfold apply_content_filter age_check score_check comments_check
    rw [hc]
    by_cases h : t < now - d * 86400
    · have h' : ¬ (now - d * 86400 ≤ t) := by omega
      simp [PyDate.truthy, PyDate.parseE, h, h']
    · have h' : now - d * 86400 ≤ t := by omega
      simp [PyDate.truthy, PyDate.parseE, h, h']
  · intro f hf ht
    unfold apply_content_filter age_check
    rw [hc, hf]
    simp [PyDate.truthy, PyDate.parseE, ht]

/-- Witness for `c7_age_filter_boundary` one second on each side of the
cutoff `1000000 - 1·86400 = 913600`. -/
theorem c7_age_filter_boundary_witness :
    (c7Content 913599).created_date = some (.isoTs 913599) ∧
    apply_content_filter 1000000 (c7Content 913599) { max_age_days := some 1 } =
      .ok (decide ((1000000 : Int) - 1 * 86400 ≤ 913599)) ∧
    apply_content_filter 1000000 (c7Content 913601) { max_age_days := some 1 } =
      .ok (decide ((1000000 : Int) - 1 * 86400 ≤ 913601)) ∧
    apply_content_filter 1000000 (c7Content 913599)
      { max_age_days := some 1, min_score := some 10 } = .ok false :=
  ⟨rfl,
    (c7_age_filter_boundary 1000000 1 913599 (c7Content 913599) rfl).1,
    (c7_age_filter_boundary 1000000 1 913601 (c7Content 913601) rfl).1,
    (c7_age_filter_boundary 1000000 1 913599 (c7Content 913599) rfl).2
      { max_age_days := some 1, min_score := some 10 } rfl (by omega)⟩

/-! ### Claim C8 — malformed content values and the filter's error paths -/

/-- C8 counterexample: the filter can raise on malformed content.  A
numeric `created_date` outside the platform timestamp range (e.g. `1e30`
or `float("inf")`) makes `datetime.fromtimestamp(float(created))` raise
`OverflowError`, and an infinite `num_comments` makes `int(...)` raise
`OverflowError`; neither is in the checks'
`except (ValueError, TypeError)` clauses, so the error propagates out of
`apply_content_filter` instead of the check being skipped and a boolean
returned. -/
theorem c8_overflow_raises_counterexample :
    apply_content_filter 0 { created_date := some .epochOverflow }
      { max_age_days := some 7 } = .error .overflowError ∧
    apply_content_filter 0 { num_comments := some .inf }
      { min_comments := some 1 } = .error .overflowError :=
  ⟨rfl, rfl⟩

/-- C8 (amended): malformed values whose conversion fails with a *caught*
`ValueError`/`TypeError` — an unparsable `created_date` string, a
non-numeric non-date `created_date` object, a non-numeric `score`, a
non-numeric `num_comments` — and an infinite `score` (on which `float()`
succeeds and the comparison is simply false) make the filter behave
exactly as if that field were absent: only that check is skipped and
evaluation continues with the remaining checks; out-of-range numeric dates
and infinite comment counts instead raise uncaught `OverflowError` (the
counterexample). -/
theorem c8_caught_malformed_values_skipped (now : Int) (c : ContentData)
    (f : FilterCriteria) :
    (apply_content_filter now { c with created_date := some .isoBad } f =
      apply_content_filter now { c with created_date := none } f) ∧
    (apply_content_filter now { c with created_date := some .bad } f =
      apply_content_filter now { c with created_date := none } f) ∧
    (apply_content_filter now { c with score := some .bad } f =
      apply_content_filter now { c with score := none } f) ∧
    (apply_content_filter now { c with score := some .inf } f =
      apply_content_filter now { c with score := none } f) ∧
    (apply_content_filter now { c with num_comments := some .bad } f =
      apply_content_filter now { c with num_comments := none } f) := by
  obtain ⟨ma, ms, mc, ik, ek⟩ := f
  refine ⟨?_, ?_, ?_, ?_, ?_⟩
  · cases ma <;> rfl
  · cases ma <;> rfl
  · cases ms <;> rfl
  · cases ms <;> rfl
  · cases mc <;> rfl

/-! ## Keyword-criteria cascades — Gmail vs Reddit (claim C4)

`GmailCollector._should_process_message` merges the global
`default_filters` with the rule's filters: it unions the include/exclude
keyword lists of both levels (Python `list(set.union(...))`; modelled as
list concatenation, which has the same membership, and keyword matching is
an existential over the list) and takes `max_age_days` most-specific-wins
(rule over default).

`RedditCollector.collect_subreddit` instead computes
`filters_to_use = subreddit_config.filters or self.config.default_filters`:
when a per-subreddit filter object exists it replaces the default wholesale
(a dataclass instance is always truthy), and all five criteria fields are
taken from that single object. -/

/-- The Gmail `FilterConfig` fields used by the cascade. -/
structure GmailFilterConfig where
  max_age_days : Option Int := none
  include_keywords : List String := []
  exclude_keywords : List String := []
deriving DecidableEq

/-- The criteria dict built by `GmailCollector._should_process_message`
from the global and rule filter levels. -/
def gmail_cascade (default_filters rule_filters : Option GmailFilterConfig) :
    FilterCriteria :=
  { max_age_days :=
      match rule_filters with
      | some f =>
          match f.max_age_days with
          | some v => some v
          | none =>
              match default_filters with
              | some g => g.max_age_days
              | none => none
      | none =>
          match default_filters with
          | some g => g.max_age_days
          | none => none,
    include_keywords :=
      (match default_filters with | some g => g.include_keywords | none => []) ++
      (match rule_filters with | some f => f.include_keywords | none => []),
    exclude_keywords :=
      (match default_filters with | some g => g.exclude_keywords | none => []) ++
      (match rule_filters with | some f => f.exclude_keywords | none => []) }

/-- The Reddit `FilterConfig` dataclass fields. -/
structure RedditFilterConfig where
  max_age_days : Option Int := none
  min_score : Option Int := none
  min_comments : Option Int := none
  include_keywords : List String := []
  exclude_keywords : List String := []
deriving DecidableEq

/-- `filters_to_use = subreddit_config.filters or self.config.default_filters`
in `RedditCollector.collect_subreddit`. -/
def reddit_filters_to_use (rule_filters default_filters : Option RedditFilterConfig) :
    Option RedditFilterConfig :=
  match rule_filters with
  | some f => some f
  | none => default_filters

/-- The criteria dict `collect_subreddit` passes to `apply_content_filter`,
taken field-by-field from the single `filters_to_use` object. -/
def reddit_criteria (f : RedditFilterConfig) : FilterCriteria :=
  { max_age_days := f.max_age_days,
    min_score := f.min_score,
    min_comments := f.min_comments,
    include_keywords := f.include_keywords,
    exclude_keywords := f.exclude_keywords }

/-- The combination rule exactly as claim C4 states it (set union of the
keyword lists of both levels, most-specific-wins for scalar fields); stated
from the claim's words, for comparison with the collectors' actual
combinations. -/
def claim_union_criteria (dflt rule : RedditFilterConfig) : FilterCriteria :=
  { max_age_days :=
      match rule.max_age_days with | some v => some v | none => dflt.max_age_days,
    min_score :=
      match rule.min_score with | some v => some v | none => dflt.min_score,
    min_comments :=
      match rule.min_comments with | some v => some v | none => dflt.min_comments,
    include_keywords := dflt.include_keywords ++ rule.include_keywords,
    exclude_keywords := dflt.exclude_keywords ++ rule.exclude_keywords }

/-- Default-level criteria of the C4 example (`include = ["ai"]`). -/
def c4Default : RedditFilterConfig := { include_keywords := ["ai"] }

/-- Rule-level criteria of the C4 example (`include = ["ml"]`). -/
def c4Rule : RedditFilterConfig := { include_keywords := ["ml"] }

/-- C4 counterexample: in the Reddit collector the rule's filter object
overrides the default wholesale, so with default `include = ["ai"]` and
rule `include = ["ml"]` the effective include list is just `["ml"]` and a
record containing only `"ai"` fails — under the claimed union combination
it would pass.  Keyword lists are therefore not always combined by union
across scope levels. -/
theorem c4_reddit_overrides_counterexample :
    reddit_filters_to_use (some c4Rule) (some c4Default) = some c4Rule ∧
    apply_content_filter 0 { title := some "ai" } (reddit_criteria c4Rule) = .ok false ∧
    apply_content_filter 0 { title := some "ai" } (claim_union_criteria c4Default c4Rule) =
      .ok true :=
  ⟨rfl, rfl, rfl⟩

/-- Gmail default filters of the C4 example. -/
def gmailC4Default : GmailFilterConfig := { include_keywords := ["ai"] }

/-- Gmail rule filters of the C4 example. -/
def gmailC4Rule : GmailFilterConfig := { include_keywords := ["ml"] }

/-- C4 (amended): the Gmail cascade unions keyword lists across the two
scope levels (membership in the combined include list is membership in
either level) and takes scalar `max_age_days` most-specific-wins, and with
default `include=["ai"]`, rule `include=["ml"]` a record containing only
`"ml"` passes; the Reddit collector instead uses the rule's filter object
wholesale, under which the `"ml"`-only record also passes. -/
theorem c4_keyword_cascade_union :
    (∀ (fd fr : GmailFilterConfig) (k : String),
      k ∈ (gmail_cascade (some fd) (some fr)).include_keywords ↔
        k ∈ fd.include_keywords ∨ k ∈ fr.include_keywords) ∧
    (∀ fd fr : GmailFilterConfig,
      (gmail_cascade (some fd) (some fr)).max_age_days =
        (match fr.max_age_days with
         | some v => some v
         | none => fd.max_age_days)) ∧
    apply_content_filter 0 { title := some "ml" }
      (gmail_cascade (some gmailC4Default) (some gmailC4Rule)) = .ok true ∧
    apply_content_filter 0 { title := some "ml" } (reddit_criteria c4Rule) = .ok true := by
  refine ⟨?_, ?_, by rfl, by rfl⟩
  · intro fd fr k
    simp [gmail_cascade]
  · intro fd fr
    obtain ⟨ma, ik, ek⟩ := fr
    cases ma <;> rfl

/-- Witness for `c4_keyword_cascade_union` at the example configuration. -/
theorem c4_keyword_cascade_union_witness :
    ("ml" ∈ (gmail_cascade (some gmailC4Default) (some gmailC4Rule)).include_keywords ↔
      "ml" ∈ gmailC4Default.include_keywords ∨ "ml" ∈ gmailC4Rule.include_keywords) :=
  c4_keyword_cascade_union.1 gmailC4Default gmailC4Rule "ml"

/-! ## Freshness decisions (claim C6)

`RedditCollector._should_update_post(post_id, comment_count)` returns
`True` when the post is absent from `self.state`, otherwise
`comment_count > self.state[post_id].get("comment_count", 0)`.  The stored
per-post dict is modelled by its integer counter entries.

`StackExchangeCollector._should_update_question(question_id, answer_count,
last_activity_date)` returns `(True, False)` when
`is_item_processed(question_id)` is false; otherwise it scans the rows of
`get_processed_items(source_type="stackexchange")` for the first row whose
`item_id` equals the question id and whose metadata dict is truthy
(non-`NULL` and non-empty), returns `(True, True)` when
`answer_count > metadata.get("answer_count", 0)` or
`last_activity_date > metadata.get("last_activity_date", 0)`, and
`(False, False)` otherwise (also when no such row is found).  Rows are
modelled by `(item_id, metadata)`; the metadata dict by its integer
counter entries. -/

/-- `RedditCollector._should_update_post`. -/
def should_update_post (state : List (String × List (String × Int)))
    (post_id : String) (comment_count : Int) : Bool :=
  match lookupA state post_id with
  | none => true
  | some stored => decide (comment_count > (lookupA stored "comment_count").getD 0)

/-- A StackExchange metadata dict, restricted to its integer counters. -/
abbrev SEMeta := List (String × Int)

/-- The scan over stored rows in `_should_update_question`: first row for
this question id whose metadata is truthy (present and non-empty). -/
def se_find_question_meta (rows : List (String × Option SEMeta)) (qid : String) :
    Option SEMeta :=
  match rows with
  | [] => none
  | (iid, md) :: rest =>
      if iid = qid then
        match md with
        | some m => if m = [] then se_find_question_meta rest qid else some m
        | none => se_find_question_meta rest qid
      else se_find_question_meta rest qid

/-- `StackExchangeCollector._should_update_question`, returning
`(should_process, is_update)`; `is_processed` is the result of
`state_manager.is_item_processed(str(question_id))` and `rows` the rows of
`get_processed_items(source_type="stackexchange")`. -/
def should_update_question (is_processed : Bool)
    (rows : List (String × Option SEMeta)) (question_id : String)
    (answer_count last_activity_date : Int) : Bool × Bool :=
  if !is_processed then (true, false)
  else
    match se_find_question_meta rows question_id with
    | some m =>
        if answer_count > (lookupA m "answer_count").getD 0 then (true, true)
        else if last_activity_date > (lookupA m "last_activity_date").getD 0 then (true, true)
        else (false, false)
    | none => (false, false)

/-- C6: the freshness decision is NEW (process, not an update) exactly when
no stored record exists, UPDATE (process as update) exactly when at least
one observed counter strictly exceeds the corresponding stored counter
(missing stored counters default to 0), and UNCHANGED (skip) otherwise;
equality of counters does not trigger re-processing.  Stated for the
StackExchange decision (both axes) and the Reddit boolean decision, with
the claim's concrete instances `stored answer_count 2 / observed 2 ↦
UNCHANGED`, `stored 2 / observed 5 ↦ UPDATE`, `no record ↦ NEW`. -/
theorem c6_freshness_decision :
    (∀ (rows : List (String × Option SEMeta)) (qid : String) (ac la : Int),
      should_update_question false rows qid ac la = (true, false)) ∧
    (∀ (m : SEMeta) (qid : String) (ac la : Int), m ≠ [] →
      should_update_question true [(qid, some m)] qid ac la =
        (if ac > (lookupA m "answer_count").getD 0 ∨
            la > (lookupA m "last_activity_date").getD 0
         then (true, true) else (false, false))) ∧
    (∀ (state : List (String × List (String × Int))) (pid : String) (cc : Int),
      should_update_post state pid cc = true ↔
        lookupA state pid = none ∨
        ∃ stored, lookupA state pid = some stored ∧
          cc > (lookupA stored "comment_count").getD 0) ∧
    should_update_question true [("q", some [("answer_count", 2)])] "q" 2 0 =
      (false, false) ∧
    should_update_question true [("q", some [("answer_count", 2)])] "q" 5 0 =
      (true, true) ∧
    should_update_question false [] "q" 7 0 = (true, false) := by
  refine ⟨?_, ?_, ?_, by decide, by decide, by decide⟩
  · intro rows qid ac la
    rfl
  · intro m qid ac la hm
    simp only [should_update_question, se_find_question_meta, if_pos rfl, hm,
      Bool.not_true, Bool.false_eq_true, if_false]
    by_cases h1 : ac > (lookupA m "answer_count").getD 0
    · simp [h1]
    · by_cases h2 : la > (lookupA m "last_activity_date").getD 0
      · simp [h1, h2]
      · simp [h1, h2]
  · intro state pid cc
    unfold should_update_post
    cases h : lookupA state pid with
    | none => simp
    | some stored => simp [h]

/-- Witness for `c6_freshness_decision` with a non-empty stored metadata
dict. -/
theorem c6_freshness_decision_witness :
    ([("answer_count", (2 : Int))] : SEMeta) ≠ [] ∧
    should_update_question true [("q", some [("answer_count", 2)])] "q" 5 7 =
      (if (5 : Int) > (lookupA [("answer_count", (2 : Int))] "answer_count").getD 0 ∨
          (7 : Int) > (lookupA [("answer_count", (2 : Int))] "last_activity_date").getD 0
       then (true, true) else (false, false)) :=
  ⟨by decide, c6_freshness_decision.2.1 [("answer_count", 2)] "q" 5 7 (by decide)⟩

/-! ## `JsonStateManager.save_state` — write-temp-then-rename (claim C9)

`save_state(state)` opens a `NamedTemporaryFile` in the target directory,
`json.dump`s the state into it, flushes, fsyncs, binds `temp_path = f.name`
as the last statement of the `with` block, then `os.rename`s the temp file
onto the state file.  `except (json.JSONDecodeError, OSError)` unlinks the
temp file when `"temp_path" in locals()` and re-raises as
`StateManagementError`.  Consequences modelled step by step below: a
`TypeError` from `json.dump` (unserialisable value) is not in the except
clause and propagates as-is; an `OSError` from dump/flush/fsync is caught
but occurs before `temp_path` is bound, so the temp file is not removed;
only a failure of the rename itself reaches the unlink.  The filesystem is
modelled by the persisted file and the temp file; the partial content of a
half-written temp file is represented by the document being written, since
only its presence matters. -/

/-- Persisted file and temp file of the state directory. -/
structure FState (α : Type) where
  main : Option α
  temp : Option α
deriving DecidableEq

/-- The step of `save_state` made to fail in a run, if any. -/
inductive SaveFault where
  | openFail             -- `NamedTemporaryFile(...)` raises OSError
  | dumpFail             -- `json.dump` raises TypeError (unserialisable value)
  | writeFail            -- `json.dump`/`flush`/`fsync` raises OSError
  | renameFail           -- `os.rename` raises OSError, cleanup unlink succeeds
  | renameFailUnlinkFail -- `os.rename` raises OSError and the unlink also raises
deriving DecidableEq

/-- How the call terminates. -/
inductive SaveOutcome where
  | success
  | stateManagementError -- raised by the except-branch
  | typeError            -- TypeError propagating uncaught
deriving DecidableEq

/-- `JsonStateManager.save_state` under an injected fault. -/
def save_state {α : Type} (fs : FState α) (state : α) (fault : Option SaveFault) :
    FState α × SaveOutcome :=
  if fault = some .openFail then
    -- temp-file creation raised before anything was written: caught,
    -- `"temp_path" in locals()` is false, StateManagementError
    (fs, .stateManagementError)
  else if fault = some .dumpFail then
    -- `json.dump` raised TypeError inside the `with` block: the temp file
    -- exists, TypeError is not in the except clause and propagates
    ({ fs with temp := some state }, .typeError)
  else if fault = some .writeFail then
    -- OSError before `temp_path = f.name` ran: caught, but `"temp_path"`
    -- is not in locals, so the temp file is not removed
    ({ fs with temp := some state }, .stateManagementError)
  else if fault = some .renameFail then
    -- the rename raised: caught, `temp_path` is bound, unlink succeeds
    ({ fs with temp := none }, .stateManagementError)
  else if fault = some .renameFailUnlinkFail then
    -- the rename raised and the unlink raised too; the unlink's OSError is
    -- swallowed and the temp file remains
    ({ fs with temp := some state }, .stateManagementError)
  else
    -- dump, flush, fsync and rename all succeeded: the rename atomically
    -- replaces the persisted file with the temp file
    ({ main := some state, temp := none }, .success)

/-- C9 counterexample: an `OSError` during write/fsync is reported as
`StateManagementError` but the temp file is left behind (removal requires
`temp_path` to be bound, which happens only after a successful fsync), and
a serialisation `TypeError` propagates as-is rather than as
`StateManagementError` — so "the temporary file is removed on failure and
the failure is reported as a StateManagementError" fails, although the
persisted file is unchanged in both runs. -/
theorem c9_save_state_failure_counterexample :
    save_state (α := Nat) ⟨some 0, none⟩ 1 (some .writeFail) =
      (⟨some 0, some 1⟩, .stateManagementError) ∧
    save_state (α := Nat) ⟨some 0, none⟩ 1 (some .dumpFail) =
      (⟨some 0, some 1⟩, .typeError) := by
  decide

/-- C9 (amended): whatever fails, the previously persisted state file is
left unchanged — the new content becomes visible only through the final
rename; a successful run atomically replaces the persisted file and leaves
no temp file; a failure of the rename step removes the temp file and is
reported as `StateManagementError`; and the only failure that is not
reported as `StateManagementError` is a serialisation `TypeError`, which
propagates unchanged (and, like OSErrors before `temp_path` is bound,
leaks the temp file). -/
theorem c9_save_state_atomic {α : Type} (fs : FState α) (st : α)
    (fault : Option SaveFault) :
    ((save_state fs st fault).2 ≠ .success → (save_state fs st fault).1.main = fs.main) ∧
    save_state fs st none = ({ main := some st, temp := none }, .success) ∧
    save_state fs st (some .renameFail) = ({ fs with temp := none }, .stateManagementError) ∧
    ((save_state fs st fault).2 = .typeError → fault = some .dumpFail) := by
  rcases fault with _ | f
  · refine ⟨fun h => absurd rfl h, rfl, rfl, fun h => by simp [save_state] at h⟩
  · cases f <;> exact ⟨fun _ => rfl, rfl, rfl, by simp [save_state]⟩

/-- Witness for `c9_save_state_atomic` at a concrete failing run. -/
theorem c9_save_state_atomic_witness :
    (save_state (α := Nat) ⟨some 0, none⟩ 1 (some .renameFail)).2 ≠ .success ∧
    (save_state (α := Nat) ⟨some 0, none⟩ 1 (some .renameFail)).1.main = some 0 :=
  ⟨by decide, (c9_save_state_atomic ⟨some 0, none⟩ 1 (some .renameFail)).1 (by decide)⟩

/-! ## `SqliteStateManager` — `processed_items` table (claim C10)

`mark_item_processed(item_id, source_type, source_name, metadata=None)`
computes `metadata_json = json.dumps(metadata) if metadata else None` —
Python truthiness, so both `None` and the empty dict `{}` store SQL `NULL`
— and `INSERT OR REPLACE`s the row keyed on `item_id`.
`get_processed_items(source_type=None, source_name=None, limit=None)`
filters by the optional source columns, orders by `processed_timestamp`
descending, applies `LIMIT` only when `limit` is truthy (so `limit=0`
means no limit), and maps `metadata_json` back through
`json.loads(metadata_json) if metadata_json else None`.

The JSON metadata column is modelled by the dict it encodes
(`json.loads ∘ json.dumps` is the identity on such dicts, and the dumped
string of a non-empty dict is non-empty, hence truthy); timestamps are
modelled by integers with the source's descending order. -/

/-- A JSON-representable metadata value. -/
inductive MVal where
  | s (v : String)
  | i (n : Int)
  | b (v : Bool)
  | null
deriving DecidableEq

/-- A metadata dict. -/
abbrev MetaDict := List (String × MVal)

/-- A row of the `processed_items` table. -/
structure DBRow where
  item_id : String
  source_type : String
  source_name : String
  processed_timestamp : Int
  metadata_json : Option MetaDict
deriving DecidableEq

/-- `SqliteStateManager.mark_item_processed`: `INSERT OR REPLACE` keyed on
the `item_id` primary key, storing `NULL` metadata for a falsy
(`None` or empty) metadata argument. -/
def mark_item_processed (db : List DBRow) (item_id source_type source_name : String)
    (now : Int) (metadata : Option MetaDict) : List DBRow :=
  let metadata_json : Option MetaDict :=
    match metadata with
    | some m => if m = [] then none else some m
    | none => none
  db.filter (fun r => !(r.item_id == item_id)) ++
    [{ item_id, source_type, source_name, processed_timestamp := now, metadata_json }]

/-- The `WHERE` clause of `get_processed_items` (each filter applies only
when the argument is supplied). -/
def rowMatches (source_type? source_name? : Option String) (r : DBRow) : Bool :=
  (match source_type? with | some st => r.source_type == st | none => true) &&
  (match source_name? with | some sn => r.source_name == sn | none => true)

/-- Insert a row into a list kept in descending timestamp order. -/
def insertByTsDesc (r : DBRow) : List DBRow → List DBRow
  | [] => [r]
  | x :: xs =>
      if x.processed_timestamp < r.processed_timestamp then r :: x :: xs
      else x :: insertByTsDesc r xs

/-- `ORDER BY processed_timestamp DESC`. -/
def sortByTsDesc (l : List DBRow) : List DBRow :=
  l.foldr insertByTsDesc []

/-- `SqliteStateManager.get_processed_items` (rows returned as `DBRow`s;
the source returns the same five fields as tuples). -/
def get_processed_items (db : List DBRow) (source_type? source_name? : Option String)
    (limit? : Option Nat) : List DBRow :=
  let ordered := sortByTsDesc (db.filter (rowMatches source_type? source_name?))
  match limit? with
  | some n => if n = 0 then ordered else ordered.take n
  | none => ordered

theorem insertByTsDesc_perm (r : DBRow) (l : List DBRow) :
    (insertByTsDesc r l).Perm (r :: l) := by
  induction l with
  | nil => exact List.Perm.refl _
  | cons x xs ih =>
      by_cases h : x.processed_timestamp < r.processed_timestamp
      · simp [insertByTsDesc, h]
      · simp only [insertByTsDesc, h, if_false]
        exact (ih.cons x).trans (List.Perm.swap r x xs)

theorem sortByTsDesc_perm (l : List DBRow) : (sortByTsDesc l).Perm l := by
  induction l with
  | nil => exact List.Perm.refl _
  | cons x xs ih =>
      exact (insertByTsDesc_perm x (sortByTsDesc xs)).trans (ih.cons x)

theorem mem_get_processed_items_all (db : List DBRow) (r : DBRow) :
    r ∈ get_processed_items db none none none ↔ r ∈ db := by
  unfold get_processed_items
  rw [(sortByTsDesc_perm _).mem_iff]
  simp [rowMatches]

/-- C10: JSON metadata round-trips through the SQLite store only for
truthy dicts: a non-empty metadata dict `m` comes back as `m` from
`get_processed_items`, while marking with `{}` or `None` stores a `NULL`
column and comes back as `None` — not as the empty dict. -/
theorem c10_empty_metadata_not_roundtripped (db : List DBRow)
    (item_id st sn : String) (now : Int) (m : MetaDict) :
    (m ≠ [] →
      (∀ r ∈ get_processed_items (mark_item_processed db item_id st sn now (some m))
          none none none, r.item_id = item_id → r.metadata_json = some m) ∧
      (∃ r ∈ get_processed_items (mark_item_processed db item_id st sn now (some m))
          none none none, r.item_id = item_id ∧ r.metadata_json = some m)) ∧
    (∀ r ∈ get_processed_items (mark_item_processed db item_id st sn now (some []))
        none none none, r.item_id = item_id → r.metadata_json = none) ∧
    (∀ r ∈ get_processed_items (mark_item_processed db item_id st sn now none)
        none none none, r.item_id = item_id → r.metadata_json = none) ∧
    (∃ r ∈ get_processed_items (mark_item_processed db item_id st sn now (some []))
        none none none, r.item_id = item_id ∧ r.metadata_json = none) := by
  have hmem : ∀ (md : Option MetaDict) (r : DBRow),
      r ∈ get_processed_items (mark_item_processed db item_id st sn now md)
        none none none ↔
      (r ∈ db ∧ ¬ r.item_id = item_id) ∨
        r = { item_id, source_type := st, source_name := sn,
              processed_timestamp := now,
              metadata_json :=
                match md with
                | some m' => if m' = [] then none else some m'
                | none => none } := by
    intro md r
    rw [mem_get_processed_items_all]
    unfold mark_item_processed
    simp [List.mem_filter]
  refine ⟨fun hm => ⟨?_, ?_⟩, ?_, ?_, ?_⟩
  · intro r hr hid
    rcases (hmem (some m) r).1 hr with ⟨_, hne⟩ | hr'
    · exact absurd hid hne
    · simp [hr', hm]
  · refine ⟨_, (hmem (some m) _).2 (Or.inr rfl), rfl, ?_⟩
    simp [hm]
  · intro r hr hid
    rcases (hmem (some []) r).1 hr with ⟨_, hne⟩ | hr'
    · exact absurd hid hne
    · simp [hr']
  · intro r hr hid
    rcases (hmem none r).1 hr with ⟨_, hne⟩ | hr'
    · exact absurd hid hne
    · simp [hr']
  · exact ⟨_, (hmem (some []) _).2 (Or.inr rfl), rfl, by simp⟩

/-- Witness for `c10_empty_metadata_not_roundtripped` with a concrete
non-empty metadata dict. -/
theorem c10_empty_metadata_not_roundtripped_witness :
    ∃ r ∈ get_processed_items
        (mark_item_processed [] "42" "reddit" "test" 0 (some [("title", MVal.s "hi")]))
        none none none,
      r.item_id = "42" ∧ r.metadata_json = some [("title", MVal.s "hi")] :=
  ((c10_empty_metadata_not_roundtripped [] "42" "reddit" "test" 0
      [("title", MVal.s "hi")]).1 (by decide)).2

/-! ## Gmail state loading with validation (claim C3)

`JsonStateManager.load_state` returns `{}` when the state file does not
exist, raises `StateManagementError` when the file cannot be read or its
JSON cannot be decoded, and raises `StateManagementError` when the decoded
JSON is not a dict.  `GmailCollector._load_state_with_validation` wraps it
in `try/except Exception`: any load error falls back to
`_create_initial_state()` with a warning; a loaded dict is then validated —
a `processed_messages` value that is neither a dict nor a list resets to
the initial state, invalid entries of a dict (values that are not dicts or
lack `"actions_applied"`) are deleted — and finally
`state["_integrity_hash"] = _calculate_state_hash(state)` is (re)computed
over the non-underscore fields and stored.  No stored hash is ever
compared against anything.

The backing file is modelled by its parse status; a state dict by its
`processed_messages` value plus the underscore-prefixed integrity hash
(the constant `version`/`_created` bookkeeping carries no claim content).
`calculate_state_hash` models SHA-256 of the canonical JSON by a concrete
deterministic function of the non-underscore content — the claims depend
only on it being a pure function of that content. -/

/-- A value stored under a message id in `processed_messages`. -/
inductive MsgVal where
  | valid (actions_applied : List String)
  | invalid
deriving DecidableEq

/-- The `processed_messages` value of a loaded state dict. -/
inductive PMVal where
  | pmList (ids : List String)
  | pmDict (entries : List (String × MsgVal))
  | pmOther
deriving DecidableEq

/-- A Gmail collector state dict. -/
structure GmailState where
  processed_messages : Option PMVal := none
  integrity_hash : Option Nat := none
deriving DecidableEq

/-- Error raised by `JsonStateManager.load_state`. -/
inductive LoadErr where
  | stateManagementError
deriving DecidableEq

/-- The gmail state file's parse status. -/
inductive StateBFile where
  | missing
  | badJson
  | nonDictJson
  | jsonDict (s : GmailState)
deriving DecidableEq

/-- `JsonStateManager.load_state` on the gmail state file. -/
def load_state : StateBFile → Except LoadErr GmailState
  | .missing => .ok {}
  | .badJson => .error .stateManagementError
  | .nonDictJson => .error .stateManagementError
  | .jsonDict s => .ok s

/-- Model of `_calculate_state_hash` over the non-underscore content. -/
def calculate_state_hash : Option PMVal → Nat
  | none => 0
  | some (.pmList ids) => 1 + 2 * ids.length
  | some (.pmDict es) => 2 + 2 * es.length
  | some .pmOther => 3

/-- `GmailCollector._create_initial_state`. -/
def create_initial_state : GmailState :=
  { processed_messages := some (.pmDict []),
    integrity_hash := some (calculate_state_hash (some (.pmDict []))) }

/-- The entry validation of `_load_state_with_validation`: a message entry
survives when it is a dict containing `"actions_applied"`. -/
def validEntry : String × MsgVal → Bool
  | (_, .valid _) => true
  | (_, .invalid) => false

/-- `GmailCollector._load_state_with_validation`: total — every load error
is recovered by resetting to the initial state. -/
def load_state_with_validation (f : StateBFile) : GmailState :=
  match load_state f with
  | .error _ => create_initial_state
  | .ok raw =>
      match raw.processed_messages with
      | none =>
          { processed_messages := none,
            integrity_hash := some (calculate_state_hash none) }
      | some (.pmList ids) =>
          { processed_messages := some (.pmList ids),
            integrity_hash := some (calculate_state_hash (some (.pmList ids))) }
      | some .pmOther => create_initial_state
      | some (.pmDict es) =>
          { processed_messages := some (.pmDict (es.filter validEntry)),
            integrity_hash :=
              some (calculate_state_hash (some (.pmDict (es.filter validEntry)))) }

/-- The message entries held by a state dict (empty unless a dict of
entries is present). -/
def storedMessages (s : GmailState) : List (String × MsgVal) :=
  match s.processed_messages with
  | some (.pmDict es) => es
  | _ => []

/-- A well-shaped state file whose stored integrity hash does not match
its content. -/
def c3TamperedState : GmailState :=
  { processed_messages := some (.pmDict [("m1", .valid ["save"])]),
    integrity_hash :=
      some (calculate_state_hash (some (.pmDict [("m1", .valid ["save"])])) + 1) }

/-- C3 counterexample: a failed integrity check does not trigger fallback.
The state below stores an integrity hash different from the hash of its
content, yet loading keeps its messages instead of resetting to a fresh
empty container — the hash is recomputed and overwritten on load, never
verified. -/
theorem c3_integrity_never_checked_counterexample :
    c3TamperedState.integrity_hash ≠
      some (calculate_state_hash c3TamperedState.processed_messages) ∧
    load_state_with_validation (.jsonDict c3TamperedState) ≠ create_initial_state ∧
    storedMessages (load_state_with_validation (.jsonDict c3TamperedState)) =
      [("m1", .valid ["save"])] := by
  decide

/-- C3 (amended): loading never surfaces an error.  A missing file yields
an empty container (no stored messages); undecodable JSON and non-dict
JSON — on which the underlying `load_state` raises `StateManagementError`
— and a wrong-shape `processed_messages` value are all recovered as the
fresh initial state, whose message container is empty.  (The stored
integrity hash plays no part in this: it is recomputed on every load, as
the counterexample shows.) -/
theorem c3_load_falls_back_to_empty :
    load_state .badJson = .error .stateManagementError ∧
    load_state .nonDictJson = .error .stateManagementError ∧
    load_state_with_validation .missing =
      { processed_messages := none, integrity_hash := some (calculate_state_hash none) } ∧
    storedMessages (load_state_with_validation .missing) = [] ∧
    load_state_with_validation .badJson = create_initial_state ∧
    load_state_with_validation .nonDictJson = create_initial_state ∧
    load_state_with_validation (.jsonDict { processed_messages := some .pmOther }) =
      create_initial_state ∧
    storedMessages create_initial_state = [] :=
  ⟨rfl, rfl, rfl, rfl, rfl, rfl, rfl, rfl⟩

end Companion
